import Mathlib

/-!
Shallow embedding of the Translator repository (src/App.tsx,
src/components/LanguageSelector.tsx, src/services/geminiService.ts)
and proofs about its view-controller state machine, language picker
filtering, history handling, and audio decoding.
-/

set_option maxHeartbeats 1000000

namespace Translator

/-- `Language` record from the repository's type declarations. -/
structure Language where
  code : String
  name : String
  nativeName : String
  deriving Repr, DecidableEq

/-- `TranslationResult` record: the gateway's parsed JSON response.
Optional JSON fields are `Option`s. -/
structure TranslationResult where
  translatedText : String
  detectedLanguage : Option String := none
  pronunciation : Option String := none
  alternatives : Option (List String) := none
  deriving Repr, DecidableEq

/-- `HistoryItem` record from the repository's type declarations. -/
structure HistoryItem where
  id : String
  sourceText : String
  translatedText : String
  sourceLang : String
  targetLang : String
  timestamp : Nat
  deriving Repr, DecidableEq

/-- The View Controller's session state: the `useState` hooks of `App`
(`sourceText`, `targetText`, `sourceLang`, `targetLang`, `detectedLang`,
`isTranslating`, `isSpeaking`, `history`, `error`). -/
structure AppState where
  sourceText : String
  targetText : String
  sourceLang : String
  targetLang : String
  detectedLang : Option String
  isTranslating : Bool
  isSpeaking : Bool
  history : List HistoryItem
  error : Option String
  deriving Repr, DecidableEq

/-- JavaScript whitespace for `String.prototype.trim`: the WhiteSpace and
LineTerminator productions (tab, LF, VT, FF, CR, space, NBSP, BOM, the
Unicode space separators, and the line/paragraph separators). -/
def isJsWhitespace (c : Char) : Bool :=
  c = ' ' || c = '\t' || c = '\n' || c = '\r' ||
  c = '\x0b' || c = '\x0c' || c = '\u00A0' || c = '\u1680' ||
  ('\u2000' ≤ c && c ≤ '\u200A') ||
  c = '\u2028' || c = '\u2029' || c = '\u202F' || c = '\u205F' ||
  c = '\u3000' || c = '\uFEFF'

/-- JavaScript `s.trim()`: strip leading and trailing whitespace. -/
def jsTrim (s : String) : String :=
  ⟨((s.data.dropWhile isJsWhitespace).reverse.dropWhile isJsWhitespace).reverse⟩

/-- JavaScript `s.toLowerCase()` restricted to the simple per-character
case mapping (sufficient for the ASCII catalog codes and names). -/
def jsToLower (s : String) : String :=
  ⟨s.data.map Char.toLower⟩

/-- JavaScript `a || b` on a possibly-absent string `a`: the result is `a`
when `a` is present and non-empty (truthy), else `b`. Used for
`result.detectedLanguage || sourceLang` in `handleTranslate`. -/
def orElseStr (a : Option String) (b : String) : String :=
  match a with
  | some x => if x = "" then b else x
  | none => b

/-- JavaScript truthiness of `result.detectedLanguage` in
`if (result.detectedLanguage) setDetectedLang(result.detectedLanguage)`:
an absent or empty string is falsy. -/
def truthyStr (a : Option String) : Bool :=
  match a with
  | some x => !(x = "")
  | none => false

/-- The default error message in `setError(err.message || "...")`. -/
def defaultErrorMessage : String := "Translation failed. Please try again."

/-- `handleTranslate` from `src/App.tsx` (lines 38-71), as a function of
the current state, the gateway outcome (`Except` models the awaited
`translateText` promise: `.error e` is a raised error whose `.message` is
`e`), and the two impure values it samples (`Math.random()`-derived id and
`Date.now()` timestamp). Returns the new state and whether `translateText`
was called. -/
def handleTranslate (s : AppState) (gateway : Except String TranslationResult)
    (newId : String) (now : Nat) : AppState × Bool :=
  if jsTrim s.sourceText = "" then
    ({ s with targetText := "", detectedLang := none }, false)
  else
    let s1 := { s with isTranslating := true, error := none }
    match gateway with
    | .ok result =>
      let s2 := { s1 with
        targetText := result.translatedText,
        detectedLang :=
          if truthyStr result.detectedLanguage then result.detectedLanguage
          else s1.detectedLang }
      let newItem : HistoryItem :=
        { id := newId
          sourceText := s.sourceText
          translatedText := result.translatedText
          sourceLang := orElseStr result.detectedLanguage s.sourceLang
          targetLang := s.targetLang
          timestamp := now }
      let s3 := { s2 with
        history := newItem :: s2.history.filter (fun h => h.sourceText != s.sourceText) }
      ({ s3 with isTranslating := false }, true)
    | .error e =>
      ({ s1 with
          error := some (if e = "" then defaultErrorMessage else e),
          isTranslating := false }, true)

/-- The debounce timer callback from `src/App.tsx` (lines 74-81): when the
timer elapses it runs `handleTranslate` only if `sourceText.length > 0`. -/
def debounceFire (s : AppState) (gateway : Except String TranslationResult)
    (newId : String) (now : Nat) : AppState × Bool :=
  if s.sourceText.length > 0 then handleTranslate s gateway newId now
  else (s, false)

/-- The history persisted to `localStorage` on every history change
(`src/App.tsx` line 35): `history.slice(0, 50)`. -/
def persistedHistory (s : AppState) : List HistoryItem :=
  s.history.take 50

/-- `swapLanguages` from `src/App.tsx` (lines 109-115). -/
def swapLanguages (s : AppState) : AppState :=
  if s.sourceLang = "auto" then s
  else
    { s with
      sourceLang := s.targetLang
      targetLang := s.sourceLang
      sourceText := s.targetText
      targetText := s.sourceText }

/-- Case-insensitive substring test: JavaScript
`a.toLowerCase().includes(b.toLowerCase())`. -/
def containsCI (hay needle : String) : Bool :=
  decide ((jsToLower needle).toList <:+: (jsToLower hay).toList)

/-- The per-entry predicate of `filteredLanguages` in
`src/components/LanguageSelector.tsx` (lines 18-26). -/
def langMatches (excludeAuto : Bool) (searchTerm : String) (lang : Language) : Bool :=
  if excludeAuto && lang.code == "auto" then false
  else
    containsCI lang.name searchTerm ||
    containsCI lang.nativeName searchTerm ||
    containsCI lang.code searchTerm

/-- `filteredLanguages` from `src/components/LanguageSelector.tsx`:
`SUPPORTED_LANGUAGES.filter(...)`, abstracted over the catalog. -/
def filteredLanguages (catalog : List Language) (excludeAuto : Bool)
    (searchTerm : String) : List Language :=
  catalog.filter (langMatches excludeAuto searchTerm)

/-- `selectedLanguage` from `src/components/LanguageSelector.tsx` (line 28):
`SUPPORTED_LANGUAGES.find(l => l.code === selectedCode) || SUPPORTED_LANGUAGES[0]`.
A found entry is an object, hence truthy; `||` falls through only on
`undefined`, modelled by falling back to the catalog's first entry. -/
def selectedLanguage (catalog : List Language) (selectedCode : String) : Option Language :=
  match catalog.find? (fun l => l.code == selectedCode) with
  | some l => some l
  | none => catalog.head?

/-- Modelled from the spec: the static `SUPPORTED_LANGUAGES` catalog lives
in `constants.ts`, which is not among the provided sources. The spec fixes
the auto-detect sentinel code `auto`, and its examples name entries
`en`/English, `es`/Spanish and `fr`/French. Only these four entries are
modelled; the theorems over the picker quantify over arbitrary catalogs,
and this model is used only for the spec's concrete examples. -/
def SUPPORTED_LANGUAGES : List Language :=
  [ { code := "auto", name := "Auto Detect", nativeName := "Auto Detect" },
    { code := "en", name := "English", nativeName := "English" },
    { code := "es", name := "Spanish", nativeName := "Español" },
    { code := "fr", name := "French", nativeName := "Français" } ]

/-- Reassemble one little-endian signed 16-bit sample from two bytes, as
`new Int16Array(data.buffer)` does on a little-endian host. -/
def toInt16 (lo hi : Nat) : Int :=
  let v := lo + 256 * hi
  if v < 32768 then (v : Int) else (v : Int) - 65536

/-- The `Int16Array` view of the byte buffer: consecutive byte pairs,
little-endian, two's complement. -/
def bytesToInt16 : List Nat → List Int
  | lo :: hi :: rest => toInt16 lo hi :: bytesToInt16 rest
  | _ => []

/-- `decodeAudioData` from `src/services/geminiService.ts` (lines 102-119):
views the bytes as int16 samples, computes `frameCount = length / numChannels`,
and fills each channel `c` with `dataInt16[i * numChannels + c] / 32768.0`.
Samples are exact dyadic rationals (`k / 2^15` with `|k| <= 2^15`), so the
IEEE-754 doubles are modelled exactly by `ℚ`. Returns the per-channel
sample lists. -/
def decodeAudioData (data : List Nat) (numChannels : Nat) : List (List ℚ) :=
  let dataInt16 := bytesToInt16 data
  let frameCount := dataInt16.length / numChannels
  (List.range numChannels).map (fun channel =>
    (List.range frameCount).map (fun i =>
      ((dataInt16.getD (i * numChannels + channel) 0 : ℚ) / 32768)))

/-- An idle session right after startup, with the source text `Hello`
typed and the default `auto` → `es` language pair. -/
def autoIdleState : AppState :=
  { sourceText := "Hello", targetText := "", sourceLang := "auto", targetLang := "es",
    detectedLang := none, isTranslating := false, isSpeaking := false,
    history := [], error := none }

/-- A session like `autoIdleState` but with the explicit source language
`en` and a displayed translation. -/
def enIdleState : AppState :=
  { autoIdleState with sourceLang := "en", targetText := "Hola" }

/-- A session whose source text has just become empty while a stale
translation and detected language are still displayed. -/
def staleEmptyState : AppState :=
  { sourceText := "", targetText := "Hola", sourceLang := "auto", targetLang := "es",
    detectedLang := some "en", isTranslating := false, isSpeaking := false,
    history := [], error := none }

/-- A session whose source text is whitespace only. -/
def wsState : AppState :=
  { staleEmptyState with sourceText := "   " }

/-- A history entry for the source text `Hello`. -/
def dupItem : HistoryItem :=
  { id := "a", sourceText := "Hello", translatedText := "Salut",
    sourceLang := "en", targetLang := "fr", timestamp := 1 }

/-- A history entry for a different source text. -/
def otherItem : HistoryItem :=
  { id := "b", sourceText := "Bye", translatedText := "Adiós",
    sourceLang := "en", targetLang := "es", timestamp := 2 }

/-- A session about to re-translate `Hello`, whose history already holds
an entry for `Hello` and one for `Bye`. -/
def dupState : AppState :=
  { enIdleState with history := [dupItem, otherItem] }

/-- A reachable state after 50 successful translations of the distinct
source texts `0` .. `49`, about to translate the fresh text `hello`. -/
def fullHistoryState : AppState :=
  { sourceText := "hello", targetText := "", sourceLang := "auto", targetLang := "es",
    detectedLang := none, isTranslating := false, isSpeaking := false,
    history := (List.range 50).map (fun i =>
      { id := toString i, sourceText := toString i, translatedText := toString i,
        sourceLang := "en", targetLang := "es", timestamp := i }),
    error := none }

/-- C1 (counterexample): the in-memory history is never truncated by
`setHistory(prev => [newItem, ...prev.filter(...)])`; inserting a fresh
51st item into a 50-item history leaves 51 items in memory, so the claimed
in-memory bound of 50 fails. -/
theorem history_cap_counterexample :
    fullHistoryState.history.length = 50 ∧
    50 < (handleTranslate fullHistoryState
        (.ok { translatedText := "hola" }) "id" 999).1.history.length := by
  decide

/-- C1 (amended): the persisted history (`history.slice(0, 50)`) never
exceeds 50 entries, and when a fresh item is inserted into a 50-item
history the in-memory list grows to 51 while the persisted copy drops the
list's last (oldest) element. -/
theorem persistedHistory_cap_spec (s : AppState) :
    (persistedHistory s).length ≤ 50 ∧
    (∀ (res : TranslationResult) (newId : String) (now : Nat),
      jsTrim s.sourceText ≠ "" →
      (∀ h ∈ s.history, h.sourceText ≠ s.sourceText) →
      s.history.length = 50 →
      (handleTranslate s (.ok res) newId now).1.history.length = 51 ∧
      persistedHistory (handleTranslate s (.ok res) newId now).1
        = (handleTranslate s (.ok res) newId now).1.history.dropLast ∧
      (handleTranslate s (.ok res) newId now).1.history.getLast? = s.history.getLast?) := by
  refine ⟨List.length_take_le 50 s.history, ?_⟩
  intro res newId now hne hfresh hlen
  rw [handleTranslate, if_neg hne]
  simp only
  have hfilter : s.history.filter (fun h => h.sourceText != s.sourceText) = s.history := by
    rw [List.filter_eq_self]
    intro a ha
    simpa using hfresh a ha
  rw [hfilter]
  refine ⟨by simp [hlen], ?_, ?_⟩
  · rw [List.dropLast_eq_take, persistedHistory]
    simp [hlen]
  · cases hh : s.history with
    | nil => rw [hh] at hlen; simp at hlen
    | cons a t => exact List.getLast?_cons_cons

/-- C1 (witness): the amended statement evaluated on the concrete 50-item
state. -/
theorem persistedHistory_cap_spec_witness :
    (handleTranslate fullHistoryState (.ok { translatedText := "hola" }) "id" 999).1.history.length
        = 51 ∧
    persistedHistory (handleTranslate fullHistoryState
        (.ok { translatedText := "hola" }) "id" 999).1
      = (handleTranslate fullHistoryState
        (.ok { translatedText := "hola" }) "id" 999).1.history.dropLast := by
  obtain ⟨h1, h2, h3⟩ := (persistedHistory_cap_spec fullHistoryState).2
    { translatedText := "hola" } "id" 999 (by decide) (by decide) (by decide)
  exact ⟨h1, h2⟩

/-- C2 (code bug): when the source text is the empty string, the debounce
callback's `sourceText.length > 0` guard skips `handleTranslate` entirely,
so no gateway call occurs but the stale target text `Hola` and detected
language `en` are left displayed instead of being cleared — the clearing
branch of `handleTranslate` is unreachable for the empty string. -/
theorem empty_source_not_cleared :
    ∀ (g : Except String TranslationResult) (newId : String) (now : Nat),
      debounceFire staleEmptyState g newId now = (staleEmptyState, false) ∧
      staleEmptyState.targetText = "Hola" ∧
      staleEmptyState.detectedLang = some "en" := by
  intro g newId now
  exact ⟨rfl, rfl, rfl⟩

/-- C3 (counterexample): with the explicit source language `en` selected
(not the auto sentinel) and a gateway result carrying
`detectedLanguage = "fr"`, the recorded history item's `sourceLang` is
`fr`, not the selected `en`: `result.detectedLanguage || sourceLang` wins
whether or not auto was selected. -/
theorem histSourceLang_counterexample :
    enIdleState.sourceLang = "en" ∧ enIdleState.sourceLang ≠ "auto" ∧
    (handleTranslate enIdleState
        (.ok { translatedText := "Bonjour", detectedLanguage := some "fr" }) "id" 0).1.history.map
        HistoryItem.sourceLang = ["fr"] := by
  decide

/-- C3 (amended): the new history item's `sourceLang` equals the gateway's
detected language whenever one is returned and non-empty — regardless of
the selected source language — and equals the selected source language
otherwise. -/
theorem histSourceLang_spec (s : AppState) (res : TranslationResult)
    (newId : String) (now : Nat) (hne : jsTrim s.sourceText ≠ "") :
    ∃ item, (handleTranslate s (.ok res) newId now).1.history.head? = some item ∧
      (∀ d, res.detectedLanguage = some d → d ≠ "" → item.sourceLang = d) ∧
      ((res.detectedLanguage = none ∨ res.detectedLanguage = some "") →
        item.sourceLang = s.sourceLang) := by
  rw [handleTranslate, if_neg hne]
  refine ⟨_, rfl, ?_, ?_⟩
  · intro d hd hdne
    simp [orElseStr, hd, hdne]
  · intro hcase
    rcases hcase with h | h <;> simp [orElseStr, h]

/-- C3 (witness): with auto selected and no detected language returned,
the history item keeps the sentinel `auto` as its `sourceLang`. -/
theorem histSourceLang_spec_witness :
    ∃ item,
      (handleTranslate autoIdleState (.ok { translatedText := "Hola" }) "id" 0).1.history.head?
        = some item ∧ item.sourceLang = "auto" := by
  obtain ⟨item, h1, _, h3⟩ :=
    histSourceLang_spec autoIdleState { translatedText := "Hola" } "id" 0 (by decide)
  exact ⟨item, h1, h3 (Or.inl rfl)⟩

/-- C4: on every successful translation of non-trim-empty text, the new
item (carrying the current source text) is prepended, the tail is the old
history with every entry for the same source text removed, and pairwise
distinctness of source texts is preserved. -/
theorem history_dedup_spec (s : AppState) (res : TranslationResult)
    (newId : String) (now : Nat) (hne : jsTrim s.sourceText ≠ "") :
    ((handleTranslate s (.ok res) newId now).1.history.head?.map HistoryItem.sourceText
        = some s.sourceText) ∧
    ((handleTranslate s (.ok res) newId now).1.history.tail
        = s.history.filter (fun h => h.sourceText != s.sourceText)) ∧
    (∀ h ∈ (handleTranslate s (.ok res) newId now).1.history.tail,
        h.sourceText ≠ s.sourceText) ∧
    (s.history.Pairwise (fun a b => a.sourceText ≠ b.sourceText) →
      (handleTranslate s (.ok res) newId now).1.history.Pairwise
        (fun a b => a.sourceText ≠ b.sourceText)) := by
  rw [handleTranslate, if_neg hne]
  refine ⟨rfl, rfl, ?_, ?_⟩
  · intro h hmem
    have := (List.mem_filter.mp hmem).2
    simpa using this
  · intro hpw
    refine List.pairwise_cons.mpr ⟨?_, hpw.filter _⟩
    intro b hb
    have := (List.mem_filter.mp hb).2
    simp only [bne_iff_ne, ne_eq] at this
    exact fun he => this he.symm

/-- C4 (witness): re-translating `Hello` drops the old `Hello` entry and
keeps the `Bye` entry in the tail. -/
theorem history_dedup_spec_witness :
    (handleTranslate dupState (.ok { translatedText := "Hola" }) "id" 3).1.history.tail
      = dupState.history.filter (fun h => h.sourceText != dupState.sourceText) :=
  (history_dedup_spec dupState { translatedText := "Hola" } "id" 3 (by decide)).2.1

/-- C5: `swapLanguages` is the identity when the source language is the
auto sentinel; otherwise it exchanges the two language codes and the two
displayed texts in one update and leaves every other field unchanged. -/
theorem swapLanguages_spec (s : AppState) :
    (s.sourceLang = "auto" → swapLanguages s = s) ∧
    (s.sourceLang ≠ "auto" →
      (swapLanguages s).sourceLang = s.targetLang ∧
      (swapLanguages s).targetLang = s.sourceLang ∧
      (swapLanguages s).sourceText = s.targetText ∧
      (swapLanguages s).targetText = s.sourceText ∧
      (swapLanguages s).detectedLang = s.detectedLang ∧
      (swapLanguages s).isTranslating = s.isTranslating ∧
      (swapLanguages s).isSpeaking = s.isSpeaking ∧
      (swapLanguages s).history = s.history ∧
      (swapLanguages s).error = s.error) := by
  constructor
  · intro h
    simp [swapLanguages, h]
  · intro h
    simp [swapLanguages, h]

/-- C5 (witness): swapping is a no-op on an auto-source state and
exchanges codes and texts on an `en` → `es` state. -/
theorem swapLanguages_spec_witness :
    swapLanguages autoIdleState = autoIdleState ∧
    (swapLanguages enIdleState).sourceLang = "es" ∧
    (swapLanguages enIdleState).targetText = "Hello" := by
  refine ⟨(swapLanguages_spec autoIdleState).1 rfl, ?_, ?_⟩
  · exact ((swapLanguages_spec enIdleState).2 (by decide)).1
  · exact ((swapLanguages_spec enIdleState).2 (by decide)).2.2.2.1

/-- C6: when the gateway call raises, the controller records a non-empty
error message, clears the in-flight flag, and leaves the target text, the
detected language, and the history unchanged. -/
theorem translate_failure_spec (s : AppState) (e : String) (newId : String) (now : Nat)
    (hne : jsTrim s.sourceText ≠ "") :
    (handleTranslate s (.error e) newId now).2 = true ∧
    (∃ msg, (handleTranslate s (.error e) newId now).1.error = some msg ∧ msg ≠ "") ∧
    (handleTranslate s (.error e) newId now).1.isTranslating = false ∧
    (handleTranslate s (.error e) newId now).1.targetText = s.targetText ∧
    (handleTranslate s (.error e) newId now).1.detectedLang = s.detectedLang ∧
    (handleTranslate s (.error e) newId now).1.history = s.history := by
  rw [handleTranslate, if_neg hne]
  refine ⟨rfl, ⟨if e = "" then defaultErrorMessage else e, rfl, ?_⟩, rfl, rfl, rfl, rfl⟩
  split
  · decide
  · assumption

/-- C6 (witness): a failing request on a state showing `Hola` keeps
showing `Hola` and ends not in flight. -/
theorem translate_failure_spec_witness :
    (handleTranslate enIdleState (.error "boom") "id" 0).1.isTranslating = false ∧
    (handleTranslate enIdleState (.error "boom") "id" 0).1.targetText = "Hola" :=
  ⟨(translate_failure_spec enIdleState "boom" "id" 0 (by decide)).2.2.1,
   (translate_failure_spec enIdleState "boom" "id" 0 (by decide)).2.2.2.1⟩

/-- A Bool-level normal form for the picker's filter predicate. -/
theorem langMatches_eq (ex : Bool) (q : String) (l : Language) :
    langMatches ex q l =
      (!(ex && l.code == "auto") &&
        (containsCI l.name q || containsCI l.nativeName q || containsCI l.code q)) := by
  rw [langMatches]
  cases h : (ex && l.code == "auto") <;> simp [h]

/-- C7: membership in the picker's visible subset is exactly: catalog
membership, not being the excluded auto sentinel, and a case-insensitive
substring match of the query against name, native name, or code (OR of
the three); the single-pass filter equals removing the sentinel first and
then filtering; query `fr` matches the `French`/`fr` entry of the
modelled catalog; and a query matching nothing yields the empty list. -/
theorem filteredLanguages_spec :
    (∀ (catalog : List Language) (ex : Bool) (q : String) (l : Language),
      l ∈ filteredLanguages catalog ex q ↔
        l ∈ catalog ∧ ¬(ex = true ∧ l.code = "auto") ∧
        ((jsToLower q).toList <:+: (jsToLower l.name).toList ∨
         (jsToLower q).toList <:+: (jsToLower l.nativeName).toList ∨
         (jsToLower q).toList <:+: (jsToLower l.code).toList)) ∧
    (∀ (catalog : List Language) (ex : Bool) (q : String),
      filteredLanguages catalog ex q =
        (cond ex (catalog.filter (fun l => l.code != "auto")) catalog).filter
          (fun l => containsCI l.name q || containsCI l.nativeName q || containsCI l.code q)) ∧
    (⟨"fr", "French", "Français"⟩ : Language) ∈ filteredLanguages SUPPORTED_LANGUAGES true "fr" ∧
    filteredLanguages SUPPORTED_LANGUAGES true "zzz" = [] := by
  refine ⟨?_, ?_, by decide, by decide⟩
  · intro catalog ex q l
    rw [filteredLanguages, List.mem_filter, langMatches_eq]
    simp [containsCI, not_and, Decidable.imp_iff_not_or]
    tauto
  · intro catalog ex q
    cases ex with
    | false =>
      simp only [cond_false, filteredLanguages]
      apply List.filter_congr
      intro a _
      simp [langMatches_eq]
    | true =>
      simp only [cond_true, filteredLanguages, List.filter_filter]
      apply List.filter_congr
      intro a _
      rw [langMatches_eq]
      have hb : (a.code != "auto") = !(a.code == "auto") := rfl
      cases h : (a.code == "auto") <;> simp [h, hb]

/-- C7 (witness): the membership characterization applied to the
`French`/`fr` entry under exclusion of the sentinel. -/
theorem filteredLanguages_spec_witness :
    (⟨"fr", "French", "Français"⟩ : Language) ∈ SUPPORTED_LANGUAGES ∧
      ¬(true = true ∧ ("fr" : String) = "auto") :=
  ⟨((filteredLanguages_spec.1 SUPPORTED_LANGUAGES true "fr"
      ⟨"fr", "French", "Français"⟩).mp (by decide)).1,
   ((filteredLanguages_spec.1 SUPPORTED_LANGUAGES true "fr"
      ⟨"fr", "French", "Français"⟩).mp (by decide)).2.1⟩

/-- The `Int16Array` view holds `byteLength / 2` samples. -/
theorem bytesToInt16_length : ∀ bs : List Nat, (bytesToInt16 bs).length = bs.length / 2
  | [] => rfl
  | [_] => by simp [bytesToInt16]
  | _ :: _ :: rest => by
    simp only [bytesToInt16, List.length_cons]
    rw [bytesToInt16_length rest]
    omega

/-- Sample `k` of the `Int16Array` view is the little-endian int16 read
from bytes `2k` and `2k+1`. -/
theorem bytesToInt16_getD : ∀ (bs : List Nat) (k : Nat), 2 * k + 1 < bs.length →
    (bytesToInt16 bs).getD k 0 = toInt16 (bs.getD (2 * k) 0) (bs.getD (2 * k + 1) 0)
  | [], _, h => by simp at h
  | [_], _, h => by simp at h
  | lo :: hi :: rest, 0, _ => rfl
  | lo :: hi :: rest, k + 1, h => by
    have e1 : 2 * (k + 1) = 2 * k + 1 + 1 := by omega
    rw [e1]
    simp only [bytesToInt16, List.getD_cons_succ]
    exact bytesToInt16_getD rest k (by simp at h; omega)

/-- Channel `ch`, frame `i` of the decoded audio is the little-endian
int16 at byte offset `2 * (i * numChannels + ch)` divided by 32768. -/
theorem decodeAudioData_sample (bytes : List Nat) (n ch i : Nat)
    (hdvd : 2 ∣ bytes.length) (hch : ch < n) (hi : i < bytes.length / 2 / n) :
    ((decodeAudioData bytes n).getD ch []).getD i 0 =
      (toInt16 (bytes.getD (2 * (i * n + ch)) 0)
        (bytes.getD (2 * (i * n + ch) + 1) 0) : ℚ) / 32768 := by
  have hlen := bytesToInt16_length bytes
  have hk : i * n + ch < bytes.length / 2 := by
    have h1 : (i + 1) * n ≤ (bytes.length / 2 / n) * n :=
      Nat.mul_le_mul_right n hi
    have h2 : (bytes.length / 2 / n) * n ≤ bytes.length / 2 :=
      Nat.div_mul_le_self _ n
    have h3 : i * n + ch < (i + 1) * n := by
      rw [Nat.succ_mul]
      omega
    omega
  have hb : 2 * (i * n + ch) + 1 < bytes.length := by omega
  simp only [decodeAudioData]
  rw [List.getD_eq_getElem?_getD, List.getD_eq_getElem?_getD, List.getElem?_map,
    List.getElem?_range hch]
  simp only [Option.map_some', Option.getD_some]
  rw [List.getElem?_map,
    List.getElem?_range (show i < (bytesToInt16 bytes).length / n by rw [hlen]; exact hi)]
  simp only [Option.map_some', Option.getD_some]
  rw [bytesToInt16_getD bytes (i * n + ch) hb]

/-- C8: `decodeAudioData` reads the buffer as little-endian signed 16-bit
PCM de-interleaved by channel count and divides each sample by 32768; in
particular the 4-byte mono buffer holding int16 samples 0x0000 and 0x4000
decodes to the samples 0 and 1/2. -/
theorem decodeAudioData_spec :
    (∀ (bytes : List Nat) (n ch i : Nat), 2 ∣ bytes.length → ch < n →
      i < bytes.length / 2 / n →
      ((decodeAudioData bytes n).getD ch []).getD i 0 =
        (toInt16 (bytes.getD (2 * (i * n + ch)) 0)
          (bytes.getD (2 * (i * n + ch) + 1) 0) : ℚ) / 32768) ∧
    decodeAudioData [0, 0, 0, 64] 1 = [[0, 1/2]] := by
  refine ⟨fun bytes n ch i hdvd hch hi => decodeAudioData_sample bytes n ch i hdvd hch hi, ?_⟩
  norm_num [decodeAudioData, bytesToInt16, toInt16, List.range_succ]

/-- C8 (witness): the general statement applied to the 4-byte mono buffer
at frame 1. -/
theorem decodeAudioData_spec_witness :
    ((decodeAudioData [0, 0, 0, 64] 1).getD 0 []).getD 1 0 =
      (toInt16 ([0, 0, 0, 64].getD (2 * (1 * 1 + 0)) 0)
        ([0, 0, 0, 64].getD (2 * (1 * 1 + 0) + 1) 0) : ℚ) / 32768 :=
  decodeAudioData_spec.1 [0, 0, 0, 64] 1 0 1 (by decide) (by decide) (by decide)

/-- C9: over any non-empty catalog, `selectedLanguage` always resolves
to some entry, and when no catalog entry carries the selected code it
resolves to the catalog's first entry. -/
theorem selectedLanguage_spec (catalog : List Language) (code : String)
    (hne : catalog ≠ []) :
    (∃ l, selectedLanguage catalog code = some l) ∧
    ((∀ l ∈ catalog, l.code ≠ code) → selectedLanguage catalog code = catalog.head?) := by
  constructor
  · cases hf : catalog.find? (fun l => l.code == code) with
    | some l => exact ⟨l, by simp [selectedLanguage, hf]⟩
    | none =>
      cases catalog with
      | nil => exact absurd rfl hne
      | cons a t => exact ⟨a, by simp [selectedLanguage, hf]⟩
  · intro hall
    have hf : catalog.find? (fun l => l.code == code) = none :=
      List.find?_eq_none.mpr (fun x hx => by simpa using hall x hx)
    cases catalog with
    | nil => exact absurd rfl hne
    | cons a t => simp [selectedLanguage, hf]

/-- C9 (witness): the unknown code `zz` resolves to the modelled
catalog's first entry. -/
theorem selectedLanguage_spec_witness :
    selectedLanguage SUPPORTED_LANGUAGES "zz" = SUPPORTED_LANGUAGES.head? :=
  (selectedLanguage_spec SUPPORTED_LANGUAGES "zz" (by decide)).2 (by decide)

/-- C10: when the source text is non-empty but trims to the empty string,
the elapsed debounce timer reaches `handleTranslate`, which clears the
target text and the detected language, touches nothing else (in
particular the history), and issues no gateway call — the short-circuit
is decided by trimming, not by length zero. -/
theorem whitespace_only_source_spec (s : AppState)
    (g : Except String TranslationResult) (newId : String) (now : Nat)
    (h1 : s.sourceText ≠ "") (h2 : jsTrim s.sourceText = "") :
    debounceFire s g newId now = ({ s with targetText := "", detectedLang := none }, false) := by
  have hlen : 0 < s.sourceText.length := by
    cases hs : s.sourceText with
    | mk data =>
      cases data with
      | nil => exact absurd hs (by simpa using h1)
      | cons a t => simp [String.length]
  rw [debounceFire, if_pos (by simpa using hlen), handleTranslate, if_pos h2]

/-- C10 (witness): the statement evaluated on a three-space source text. -/
theorem whitespace_only_source_spec_witness :
    debounceFire wsState (.ok { translatedText := "x" }) "id" 0 =
      ({ wsState with targetText := "", detectedLang := none }, false) :=
  whitespace_only_source_spec wsState (.ok { translatedText := "x" }) "id" 0
    (by decide) (by decide)

end Translator
